/-
  Verification of the Germany Tourist Places API (src/main.py) against its
  natural-language specification.

  The embedding models:
  - the Place data model and the stored-document shape,
  - the MongoDB-style filter dictionary built by `list_places` and its
    evaluation semantics ($regex with the "i" option, $elemMatch, implicit
    conjunction of top-level keys, $or),
  - the seed endpoint `seed_places`, the create endpoint `create_place`,
    and the diagnostic endpoint `test_database`.

  The storage layer (database.py: `create_document`, `get_documents`, `db`)
  is not part of the provided sources; those two accessors are modelled from
  the specification ("insert one document into a named collection, and query
  documents from a named collection with a filter and result cap").

  The matching engine behind `$regex` is MongoDB's PCRE engine; we model the
  fragment of its pattern language that the application constructs and that
  the claims exercise: literal characters, `.` (any character), `^` (match
  only at the start), `$` (match only at the end), `|` (alternation), and
  backslash escapes.  Matching is unanchored search; the "i" option is
  modelled by lowercasing both pattern literals and subject.
-/
import Mathlib

/-! ### A model of the PCRE fragment used via `$regex` -/

/-- Regular-expression syntax: the fragment of the engine's pattern language
exercised by the application's constructed patterns. -/
inductive RE where
  | eps
  | char (c : Char)
  | any
  | bol
  | eol
  | seq (a b : RE)
  | alt (a b : RE)
deriving DecidableEq

/-- Pattern tokens produced by scanning a pattern string. -/
inductive Tok where
  | lit (c : Char)
  | dot
  | caret
  | dollar
  | bar
deriving DecidableEq

/-- Scan a pattern string into tokens: `\c` is a literal `c`; `.`, `^`, `$`,
`|` are metacharacters; every other character is a literal. -/
def tokenize : List Char → List Tok
  | [] => []
  | c :: rest =>
    if c = '\\' then
      match rest with
      | [] => [Tok.lit '\\']
      | d :: rest' => Tok.lit d :: tokenize rest'
    else if c = '.' then Tok.dot :: tokenize rest
    else if c = '^' then Tok.caret :: tokenize rest
    else if c = '$' then Tok.dollar :: tokenize rest
    else if c = '|' then Tok.bar :: tokenize rest
    else Tok.lit c :: tokenize rest

/-- Split a token list into `|`-separated alternative groups. -/
def splitBar : List Tok → List (List Tok)
  | [] => [[]]
  | Tok.bar :: rest => [] :: splitBar rest
  | t :: rest =>
    match splitBar rest with
    | [] => [[t]]
    | g :: gs => (t :: g) :: gs

/-- One token as a regular expression (a stray `|` cannot occur after
`splitBar`; it is mapped to the neutral `eps`). -/
def tokRE : Tok → RE
  | Tok.lit c => RE.char c
  | Tok.dot => RE.any
  | Tok.caret => RE.bol
  | Tok.dollar => RE.eol
  | Tok.bar => RE.eps

/-- A token group as the sequential composition of its tokens. -/
def groupRE (ts : List Tok) : RE :=
  ts.foldr (fun t r => RE.seq (tokRE t) r) RE.eps

/-- A whole pattern: alternation over its `|`-separated groups. -/
def altOf : List (List Tok) → RE
  | [] => RE.eps
  | g :: gs => gs.foldl (fun acc g' => RE.alt acc (groupRE g')) (groupRE g)

/-- Parse a pattern string into the regular-expression model. -/
def parseRE (p : String) : RE :=
  altOf (splitBar (tokenize p.data))

/-- Lowercase every literal of a regular expression (half of the model of
the engine's case-insensitive "i" option). -/
def reLower : RE → RE
  | RE.eps => RE.eps
  | RE.char c => RE.char c.toLower
  | RE.any => RE.any
  | RE.bol => RE.bol
  | RE.eol => RE.eol
  | RE.seq a b => RE.seq (reLower a) (reLower b)
  | RE.alt a b => RE.alt (reLower a) (reLower b)

/-- All end positions `j` such that the expression matches the slice of `s`
from position `i` to `j`.  `bol` succeeds only at position 0 and `eol` only
at the end of the subject, as in the engine without multiline mode. -/
def matchEnds : RE → List Char → Nat → List Nat
  | RE.eps, _, i => [i]
  | RE.char c, s, i =>
    match s.drop i with
    | [] => []
    | x :: _ => if x = c then [i + 1] else []
  | RE.any, s, i =>
    match s.drop i with
    | [] => []
    | _ :: _ => [i + 1]
  | RE.bol, _, i => if i = 0 then [i] else []
  | RE.eol, s, i => if i = s.length then [i] else []
  | RE.seq a b, s, i => (matchEnds a s i).flatMap (matchEnds b s)
  | RE.alt a b, s, i => matchEnds a s i ++ matchEnds b s i

/-- Unanchored search: the expression matches somewhere in the subject. -/
def reSearch (r : RE) (s : List Char) : Bool :=
  (List.range (s.length + 1)).any fun i => !(matchEnds r s i).isEmpty

/-- The characters of a string, lowercased (model of the "i" option's
effect on the subject). -/
def lcs (s : String) : List Char :=
  s.data.map Char.toLower

/-- Model of `{"$regex": pat, "$options": "i"}` applied to subject `s`:
case-insensitive unanchored regular-expression search. -/
def regexMatchI (pat s : String) : Bool :=
  reSearch (reLower (parseRE pat)) (lcs s)

/-! ### Specification-side string predicates -/

/-- `startsWithChars needle hay`: `needle` is a prefix of `hay`. -/
def startsWithChars : List Char → List Char → Bool
  | [], _ => true
  | _ :: _, [] => false
  | a :: as, b :: bs => a = b && startsWithChars as bs

/-- `hasSub needle hay`: `needle` occurs contiguously inside `hay`. -/
def hasSub (needle hay : List Char) : Bool :=
  (List.range (hay.length + 1)).any fun i => startsWithChars needle (hay.drop i)

/-- Specification-side predicate: `q` occurs as a case-insensitive substring
of `s`.  Written from the spec's words, independently of the code. -/
def ciSub (q s : String) : Bool :=
  hasSub (lcs q) (lcs s)

/-- Specification-side predicate: `v` equals `s` case-insensitively
(full-string).  Written from the spec's words, independently of the code. -/
def ciExact (v s : String) : Bool :=
  lcs v = lcs s

/-- A character that the engine's pattern language treats literally:
not one of the engine's metacharacters. -/
def plainChar (c : Char) : Bool :=
  !(c = '\\' || c = '.' || c = '^' || c = '$' || c = '|' || c = '*' ||
    c = '+' || c = '?' || c = '(' || c = ')' || c = '[' || c = ']' ||
    c = '\x7b' || c = '\x7d')

/-- A string free of matching-engine metacharacters. -/
def plainStr (s : String) : Bool :=
  s.data.all plainChar

/-! ### Data model (schemas.Place and the stored-document shape) -/

/-- The Place entity (schemas.Place / the `/schema` endpoint): `name` is
required, every other field optional.  The floating-point coordinates are
modelled exactly as rationals; the application only stores and echoes them. -/
structure Place where
  name : String
  city : Option String := none
  state : Option String := none
  description : Option String := none
  category : Option String := none
  tags : Option (List String) := none
  latitude : Option Rat := none
  longitude : Option Rat := none
  website : Option String := none
deriving DecidableEq

/-- A document as stored in the "place" collection: the Place fields plus
the storage-assigned `_id` key.  `oid = none` models a stored document that
lacks the `_id` key. -/
structure StoredDoc where
  oid : Option Nat := none
  place : Place
deriving DecidableEq

/-- Modelled from the spec: the storage-assigned identifier is opaque and
"returned to callers as a string"; rendering is modelled as an arbitrary
injective encoding of the storage-layer insertion counter. -/
def idToString (n : Nat) : String :=
  String.mk ('#' :: List.replicate n '*')

/-- Modelled from the spec: the persistence handle's collection state, with
the counter the storage layer uses to assign fresh identifiers. -/
structure DB where
  docs : List StoredDoc
  nextId : Nat
deriving DecidableEq

/-- Modelled from the spec: `database.create_document` — "insert one
document into a named collection"; the storage layer assigns the identifier
at insertion time and it is returned as a string. -/
def create_document (db : DB) (p : Place) : String × DB :=
  (idToString db.nextId,
   ⟨db.docs ++ [⟨some db.nextId, p⟩], db.nextId + 1⟩)

/-! ### The filter dictionary built by `list_places` and its evaluation -/

/-- The filter dictionary assembled by `list_places` (main.py lines
179-193): an optional `$or` regex group for `q` and an optional anchored
regex per exact-match field.  Each component stores the raw pattern string
passed to `$regex`. -/
structure MongoFilter where
  qPat : Option String := none
  categoryPat : Option String := none
  statePat : Option String := none
  cityPat : Option String := none
deriving DecidableEq

/-- `filter_dict` construction, mirroring main.py lines 179-193.  Python's
`if q:` is true only for a present, non-empty string, so `none` and
`some ""` alike contribute nothing; the three exact-match parameters are
each wrapped as `"^" ++ v ++ "$"` without escaping, exactly as the f-string
`f"^{v}$"` does, and `q` is passed raw. -/
def buildFilter (q category state city : Option String) : MongoFilter :=
  { qPat := match q with
      | some s => if s = "" then none else some s
      | none => none
    categoryPat := match category with
      | some s => if s = "" then none else some ("^" ++ s ++ "$")
      | none => none
    statePat := match state with
      | some s => if s = "" then none else some ("^" ++ s ++ "$")
      | none => none
    cityPat := match city with
      | some s => if s = "" then none else some ("^" ++ s ++ "$")
      | none => none }

/-- `$regex` applied to an optional field: a missing (null) field never
matches a regex condition in the engine. -/
def matchOptField (pat : String) (fld : Option String) : Bool :=
  match fld with
  | some s => regexMatchI pat s
  | none => false

/-- The `$or` group built from `q`: the same raw pattern searched
case-insensitively in `name`, `city`, `state`, `category`, or matched by
`$elemMatch` against any element of `tags`. -/
def qGroupMatch (pat : String) (p : Place) : Bool :=
  regexMatchI pat p.name || matchOptField pat p.city ||
  matchOptField pat p.state || matchOptField pat p.category ||
  (match p.tags with
   | some ts => ts.any fun t => regexMatchI pat t
   | none => false)

/-- Evaluation of the filter dictionary against one document: top-level
keys combine conjunctively (the engine's implicit AND). -/
def evalFilter (f : MongoFilter) (p : Place) : Bool :=
  (match f.qPat with
   | some pat => qGroupMatch pat p
   | none => true) &&
  (match f.categoryPat with
   | some pat => matchOptField pat p.category
   | none => true) &&
  (match f.statePat with
   | some pat => matchOptField pat p.state
   | none => true) &&
  (match f.cityPat with
   | some pat => matchOptField pat p.city
   | none => true)

/-- Modelled from the spec: `database.get_documents` — "query documents
from a named collection with a filter and result cap", returning at most
`limit` matching documents in storage's natural order. -/
def get_documents (store : List StoredDoc) (f : MongoFilter) (limit : Nat) :
    List StoredDoc :=
  (store.filter fun d => evalFilter f d.place).take limit

/-! ### The endpoints -/

/-- One item of a `/places` response: `d["id"] = str(d.pop("_id", ""))` —
the `_id` key is removed, its value rendered as the string `id` (empty when
the key was absent), and all other fields pass through. -/
structure Item where
  id : String
  place : Place
deriving DecidableEq

/-- The cleaning step of `list_places` (main.py lines 197-200). -/
def cleanDoc (d : StoredDoc) : Item :=
  { id := match d.oid with
      | some n => idToString n
      | none => ""
    place := d.place }

/-- The body of a `/places` response. -/
structure ListResponse where
  items : List Item
  count : Nat
deriving DecidableEq

/-- GET `/places` (main.py lines 168-201) after parameter validation, with
the database configured: build the filter dictionary, query with the cap,
clean each document, and report the items with their count. -/
def list_places (store : List StoredDoc)
    (q category state city : Option String) (limit : Nat) : ListResponse :=
  let docs := get_documents store (buildFilter q category state city) limit
  let cleaned := docs.map cleanDoc
  { items := cleaned, count := cleaned.length }

/-- The framework's declarative validation of `limit : int =
Query(default=100, ge=1, le=500)`: absent means 100; a present value
outside [1, 500] is a client error. -/
def resolveLimit : Option Int → Except String Nat
  | none => Except.ok 100
  | some l =>
    if 1 ≤ l ∧ l ≤ 500 then Except.ok l.toNat
    else Except.error "422 limit out of range"

/-- GET `/places` including the `limit` validation layer. -/
def listPlacesEndpoint (store : List StoredDoc)
    (q category state city : Option String) (limitParam : Option Int) :
    Except String ListResponse :=
  (resolveLimit limitParam).map fun limit =>
    list_places store q category state city limit

/-- POST `/places` (main.py lines 44-49) with the database configured:
insert the submitted Place, answer with the generated identifier. -/
def create_place (db : DB) (p : Place) : String × DB :=
  create_document db p

/-! ### The seed endpoint -/

/-- The ten literal sample records of `seed_places` (main.py lines 60-161). -/
def samplePlaces : List Place :=
  [ { name := "Brandenburg Gate", city := some "Berlin", state := some "Berlin",
      category := some "landmark",
      description := some "18th-century neoclassical monument and iconic symbol of Berlin.",
      tags := some ["history", "architecture", "city"],
      latitude := some ((52516275 : Rat) / 1000000),
      longitude := some ((13377704 : Rat) / 1000000),
      website := some "https://www.visitberlin.de/en/brandenburg-gate" },
    { name := "Neuschwanstein Castle", city := some "Schwangau", state := some "Bavaria",
      category := some "castle",
      description := some "Fairy-tale 19th-century Romanesque Revival castle commissioned by King Ludwig II.",
      tags := some ["castle", "mountains", "romantic road"],
      latitude := some ((475576 : Rat) / 10000),
      longitude := some ((107498 : Rat) / 10000),
      website := some "https://www.neuschwanstein.de/englisch/tourist/index.htm" },
    { name := "Cologne Cathedral", city := some "Cologne", state := some "North Rhine-Westphalia",
      category := some "cathedral",
      description := some "UNESCO-listed Gothic cathedral with twin spires and a rich history.",
      tags := some ["unesco", "gothic", "church"],
      latitude := some ((509413 : Rat) / 10000),
      longitude := some ((69583 : Rat) / 10000),
      website := some "https://www.koelner-dom.de/" },
    { name := "Miniatur Wunderland", city := some "Hamburg", state := some "Hamburg",
      category := some "museum",
      description := some "World's largest model railway exhibition with intricate miniature worlds.",
      tags := some ["museum", "family", "model"],
      latitude := some ((535437 : Rat) / 10000),
      longitude := some ((99884 : Rat) / 10000),
      website := some "https://www.miniatur-wunderland.com/" },
    { name := "Black Forest", city := some "", state := some "Baden-Württemberg",
      category := some "nature",
      description := some "Mountainous region known for dense forests, cuckoo clocks, and scenic trails.",
      tags := some ["hiking", "nature", "scenic"],
      latitude := some ((481430 : Rat) / 10000),
      longitude := some ((82096 : Rat) / 10000),
      website := some "https://www.schwarzwald-tourismus.info/" },
    { name := "Heidelberg Castle", city := some "Heidelberg", state := some "Baden-Württemberg",
      category := some "castle",
      description := some "Picturesque Renaissance castle ruins overlooking the old town.",
      tags := some ["castle", "ruins", "river"],
      latitude := some ((494106 : Rat) / 10000),
      longitude := some ((87153 : Rat) / 10000),
      website := some "https://www.schloss-heidelberg.de/" },
    { name := "Zugspitze", city := some "Garmisch-Partenkirchen", state := some "Bavaria",
      category := some "mountain",
      description := some "Germany's highest peak with panoramic views and year-round activities.",
      tags := some ["alps", "skiing", "views"],
      latitude := some ((474210 : Rat) / 10000),
      longitude := some ((109840 : Rat) / 10000),
      website := some "https://zugspitze.de/" },
    { name := "Museum Island", city := some "Berlin", state := some "Berlin",
      category := some "museum",
      description := some "UNESCO ensemble of five world-renowned museums on the Spree.",
      tags := some ["unesco", "art", "history"],
      latitude := some ((525211 : Rat) / 10000),
      longitude := some ((133969 : Rat) / 10000),
      website := some "https://www.smb.museum/en/museums-institutions/museum-island-berlin/home/" },
    { name := "Sanssouci Palace", city := some "Potsdam", state := some "Brandenburg",
      category := some "palace",
      description := some "Rococo summer palace of Frederick the Great with terraced gardens.",
      tags := some ["palace", "gardens", "rococo"],
      latitude := some ((524036 : Rat) / 10000),
      longitude := some ((130397 : Rat) / 10000),
      website := some "https://www.spsg.de/" },
    { name := "Saxon Switzerland National Park", city := some "", state := some "Saxony",
      category := some "nature",
      description := some "Dramatic sandstone formations and hiking trails along the Elbe.",
      tags := some ["national park", "hiking", "sandstone"],
      latitude := some ((509289 : Rat) / 10000),
      longitude := some ((142366 : Rat) / 10000),
      website := some "https://www.saechsische-schweiz.de/en/" } ]

/-- The body of a `/places/seed` response. -/
structure SeedResponse where
  seeded : Bool
  message : Option String := none
  count : Nat
  ids : Option (List String) := none
deriving DecidableEq

/-- The insertion loop of `seed_places` (main.py lines 163-165): insert each
sample document in order, collecting the generated identifiers. -/
def insertAll (db : DB) : List Place → List String × DB
  | [] => ([], db)
  | p :: ps =>
    let (iid, db') := create_document db p
    let (ids, db'') := insertAll db' ps
    (iid :: ids, db'')

/-- POST `/places/seed` (main.py lines 51-166) with the database configured:
a no-op answering `seeded: false` with the existing count when any document
exists, otherwise the sample insertion loop answering `seeded: true` with
the count and list of generated identifiers. -/
def seed_places (db : DB) : SeedResponse × DB :=
  if db.docs.length > 0 then
    ({ seeded := false, message := some "Places already exist",
       count := db.docs.length }, db)
  else
    let (ids, db') := insertAll db samplePlaces
    ({ seeded := true, count := ids.length, ids := some ids }, db')

/-! ### The diagnostic endpoint -/

/-- The observable state of a configured database handle for `/test`: the
handle's optional `name` attribute, and the outcome of the live
`list_collection_names()` call (`Except.error` models a raised exception,
carrying the exception's string rendering). -/
structure DBConn where
  name : Option String := none
  listCollectionNames : Except String (List String)

/-- The body of a `/test` response. -/
structure TestResponse where
  backend : String
  database : String
  database_url : String
  database_name : String
  connection_status : String
  collections : List String
deriving DecidableEq

/-- GET `/test` (main.py lines 203-232): purely observational status
report.  `conn = none` models `db is None`; `urlSet` and `nameSet` model
whether the environment variables DATABASE_URL and DATABASE_NAME are set.
Python's `str(e)[:50]` truncation is `String.mk (e.data.take 50)`.  The
intermediate `database_url`/`database_name` assignments of the source are
overwritten unconditionally at lines 230-231, so only the final environment
checks are observable. -/
def test_database (conn : Option DBConn) (urlSet nameSet : Bool) :
    TestResponse :=
  { backend := "✅ Running"
    database :=
      match conn with
      | none => "⚠️  Available but not initialized"
      | some c =>
        match c.listCollectionNames with
        | Except.ok _ => "✅ Connected & Working"
        | Except.error e => "⚠️  Connected but Error: " ++ String.mk (e.data.take 50)
    database_url := if urlSet then "✅ Set" else "❌ Not Set"
    database_name := if nameSet then "✅ Set" else "❌ Not Set"
    connection_status :=
      match conn with
      | none => "Not Connected"
      | some _ => "Connected"
    collections :=
      match conn with
      | none => []
      | some c =>
        match c.listCollectionNames with
        | Except.ok cols => cols.take 10
        | Except.error _ => [] }

/-! ### Lemmas: the engine on metacharacter-free patterns -/

theorem plainChar_spec (c : Char) (hc : plainChar c = true) :
    c ≠ '\\' ∧ c ≠ '.' ∧ c ≠ '^' ∧ c ≠ '$' ∧ c ≠ '|' := by
  refine ⟨?_, ?_, ?_, ?_, ?_⟩ <;> intro h <;> rw [h] at hc <;>
    exact absurd hc (by decide)

theorem tokenize_cons_plain (c : Char) (l : List Char)
    (hc : plainChar c = true) :
    tokenize (c :: l) = Tok.lit c :: tokenize l := by
  obtain ⟨h1, h2, h3, h4, h5⟩ := plainChar_spec c hc
  rw [tokenize.eq_def]
  simp [h1, h2, h3, h4, h5]

theorem tokenize_plain_append (cs rest : List Char)
    (h : cs.all plainChar = true) :
    tokenize (cs ++ rest) = cs.map Tok.lit ++ tokenize rest := by
  induction cs with
  | nil => rfl
  | cons c cs ih =>
    simp only [List.all_cons, Bool.and_eq_true] at h
    simp [tokenize_cons_plain c _ h.1, ih h.2]

theorem tokenize_plain (cs : List Char) (h : cs.all plainChar = true) :
    tokenize cs = cs.map Tok.lit := by
  have := tokenize_plain_append cs [] h
  simpa [tokenize] using this

theorem splitBar_noBar (ts : List Tok) (h : ∀ t ∈ ts, t ≠ Tok.bar) :
    splitBar ts = [ts] := by
  induction ts with
  | nil => rfl
  | cons t rest ih =>
    have ht : t ≠ Tok.bar := h t (by simp)
    have hrest := ih fun x hx => h x (by simp [hx])
    cases t <;> simp [splitBar, hrest] at ht ⊢

theorem startsWithChars_cons (a b : Char) (as bs : List Char) :
    startsWithChars (a :: as) (b :: bs) =
      (decide (a = b) && startsWithChars as bs) := rfl

theorem matchEnds_lits (cs : List Char) (r : RE) (s : List Char) :
    ∀ i, matchEnds (cs.foldr (fun c acc => RE.seq (RE.char c) acc) r) s i =
      if startsWithChars cs (s.drop i) then matchEnds r s (i + cs.length)
      else [] := by
  induction cs with
  | nil =>
    intro i
    simp [startsWithChars]
  | cons c cs ih =>
    intro i
    simp only [List.foldr_cons, matchEnds]
    cases hd : s.drop i with
    | nil => simp [matchEnds, hd, startsWithChars]
    | cons x xs =>
      have hxs : s.drop (i + 1) = xs := by
        have h1 : (s.drop i).drop 1 = s.drop (i + 1) := List.drop_drop 1 i s
        rw [hd] at h1
        simpa using h1.symm
      simp only [matchEnds, hd, startsWithChars_cons]
      by_cases hxc : x = c
      · rw [hxc]
        simp only [if_pos rfl, List.flatMap_cons, List.flatMap_nil,
          List.append_nil, List.length_cons, decide_eq_true_eq,
          Bool.true_and]
        have harith : i + 1 + cs.length = i + (cs.length + 1) := by omega
        simp only [if_true, decide_True, Bool.true_and, List.flatMap_cons,
          List.flatMap_nil, List.append_nil]
        rw [ih (i + 1), hxs, harith]
      · have hcx : ¬(c = x) := fun hh => hxc hh.symm
        simp [hxc, hcx]

theorem reSearch_lits (cs s : List Char) :
    reSearch (cs.foldr (fun c acc => RE.seq (RE.char c) acc) RE.eps) s =
      hasSub cs s := by
  unfold reSearch hasSub
  congr 1
  funext i
  rw [matchEnds_lits]
  by_cases h : startsWithChars cs (s.drop i) <;> simp [h, matchEnds]

theorem reLower_lits (cs : List Char) :
    reLower (cs.foldr (fun c acc => RE.seq (RE.char c) acc) RE.eps) =
      (cs.map Char.toLower).foldr (fun c acc => RE.seq (RE.char c) acc)
        RE.eps := by
  induction cs with
  | nil => rfl
  | cons c cs ih => simp [reLower, ih]

theorem groupRE_lits (cs : List Char) :
    groupRE (cs.map Tok.lit) =
      cs.foldr (fun c acc => RE.seq (RE.char c) acc) RE.eps := by
  unfold groupRE
  rw [List.foldr_map]
  rfl

/-- For a pattern free of matching-engine metacharacters, the engine\'s
case-insensitive search coincides with case-insensitive substring
containment: the code\'s `$regex` filter is a substring match exactly on
such patterns. -/
theorem regexMatchI_plain (q s : String) (hq : plainStr q = true) :
    regexMatchI q s = ciSub q s := by
  unfold regexMatchI ciSub parseRE
  rw [tokenize_plain q.data hq]
  rw [splitBar_noBar (q.data.map Tok.lit)
    (by intro t ht; simp at ht; obtain ⟨c, -, rfl⟩ := ht; simp)]
  show reSearch (reLower (groupRE (q.data.map Tok.lit))) (lcs s) = _
  rw [groupRE_lits, reLower_lits]
  rw [reSearch_lits]
  rfl

/-! ### Lemmas: anchored patterns on metacharacter-free values -/

theorem startsWithChars_refl (l : List Char) : startsWithChars l l = true := by
  induction l with
  | nil => rfl
  | cons a as ih => simp [startsWithChars_cons, ih]

theorem startsWith_and_len_iff (cs s : List Char) :
    (startsWithChars cs s = true ∧ cs.length = s.length) ↔ cs = s := by
  induction cs generalizing s with
  | nil =>
    cases s with
    | nil => simp [startsWithChars]
    | cons b bs => simp [startsWithChars]
  | cons a as ih =>
    cases s with
    | nil => simp [startsWithChars]
    | cons b bs =>
      simp only [startsWithChars_cons, Bool.and_eq_true, decide_eq_true_eq,
        List.length_cons, Nat.add_right_cancel_iff, List.cons.injEq]
      constructor
      · rintro ⟨⟨hab, hsw⟩, hlen⟩
        exact ⟨hab, (ih bs).mp ⟨hsw, hlen⟩⟩
      · rintro ⟨hab, hrest⟩
        have := (ih bs).mpr hrest
        exact ⟨⟨hab, this.1⟩, this.2⟩

theorem reSearch_bol (X : RE) (s : List Char) :
    reSearch (RE.seq RE.bol X) s = !(matchEnds X s 0).isEmpty := by
  unfold reSearch
  rw [List.range_succ_eq_map]
  simp [matchEnds, List.any_map, Function.comp]

theorem reLower_foldr (cs : List Char) (r : RE) :
    reLower (cs.foldr (fun c acc => RE.seq (RE.char c) acc) r) =
      (cs.map Char.toLower).foldr (fun c acc => RE.seq (RE.char c) acc)
        (reLower r) := by
  induction cs with
  | nil => rfl
  | cons c cs ih => simp [reLower, ih]

theorem reSearch_anchored (cs s : List Char) :
    reSearch (RE.seq RE.bol (cs.foldr (fun c acc => RE.seq (RE.char c) acc)
      (RE.seq RE.eol RE.eps))) s = decide (cs = s) := by
  rw [reSearch_bol]
  rw [matchEnds_lits]
  simp only [List.drop_zero, Nat.zero_add]
  by_cases hst : startsWithChars cs s
  · by_cases hlen : cs.length = s.length
    · have hcs : cs = s := (startsWith_and_len_iff cs s).mp ⟨hst, hlen⟩
      simp [hst, hlen, hcs, matchEnds, startsWithChars_refl]
    · have hcs : cs ≠ s := fun he => hlen (by rw [he])
      simp [hst, hlen, hcs, matchEnds]
  · have hcs : cs ≠ s := fun he => hst (by rw [he]; exact startsWithChars_refl s)
    simp [hst, hcs]

theorem parse_anchored_plain (v : String) (hv : plainStr v = true) :
    parseRE ("^" ++ v ++ "$") =
      RE.seq RE.bol (v.data.foldr (fun c acc => RE.seq (RE.char c) acc)
        (RE.seq RE.eol RE.eps)) := by
  unfold parseRE
  have hdata : ("^" ++ v ++ "$").data = '^' :: (v.data ++ ['$']) := by
    rw [String.data_append, String.data_append]
    rfl
  rw [hdata]
  rw [show tokenize ('^' :: (v.data ++ ['$'])) =
        Tok.caret :: tokenize (v.data ++ ['$']) from by
      rw [tokenize.eq_def]; simp]
  rw [tokenize_plain_append v.data ['$'] hv]
  rw [show tokenize ['$'] = [Tok.dollar] from rfl]
  rw [splitBar_noBar]
  · show groupRE (Tok.caret :: (v.data.map Tok.lit ++ [Tok.dollar])) = _
    unfold groupRE
    rw [List.foldr_cons, List.foldr_append, List.foldr_map]
    rfl
  · intro t ht
    simp only [List.mem_cons, List.mem_append, List.mem_map,
      List.mem_singleton] at ht
    rcases ht with h | ⟨c, -, rfl⟩ | h | h
    · rw [h]; simp
    · simp
    · rw [h]; simp
    · simp at h

/-- For an exact-match parameter value free of matching-engine
metacharacters, the anchored pattern the code builds matches a field
exactly when the field equals the value case-insensitively. -/
theorem regexMatchI_anchored_plain (v s : String) (hv : plainStr v = true) :
    regexMatchI ("^" ++ v ++ "$") s = ciExact v s := by
  unfold regexMatchI ciExact
  rw [parse_anchored_plain v hv]
  rw [show reLower (RE.seq RE.bol (v.data.foldr
        (fun c acc => RE.seq (RE.char c) acc) (RE.seq RE.eol RE.eps))) =
      RE.seq RE.bol ((v.data.map Char.toLower).foldr
        (fun c acc => RE.seq (RE.char c) acc) (RE.seq RE.eol RE.eps)) from by
    rw [show reLower (RE.seq RE.bol (v.data.foldr
          (fun c acc => RE.seq (RE.char c) acc) (RE.seq RE.eol RE.eps))) =
        RE.seq RE.bol (reLower (v.data.foldr
          (fun c acc => RE.seq (RE.char c) acc) (RE.seq RE.eol RE.eps)))
      from rfl]
    rw [reLower_foldr]
    rfl]
  rw [reSearch_anchored]
  rfl

/-! ### Specification-side document predicates (for refinement comparison) -/

/-- Specification-side predicate, written from the spec's words: "a
case-insensitive substring match against `name`, `city`, `state`,
`category`, OR a case-insensitive substring match against any element of
`tags`". -/
def specQMatch (q : String) (p : Place) : Bool :=
  ciSub q p.name ||
  (match p.city with | some s => ciSub q s | none => false) ||
  (match p.state with | some s => ciSub q s | none => false) ||
  (match p.category with | some s => ciSub q s | none => false) ||
  (match p.tags with | some ts => ts.any fun t => ciSub q t | none => false)

/-- Specification-side predicate, written from the spec's words: "a
case-insensitive *exact* match (full-string anchor, not substring) against
the corresponding field". -/
def specExactField (v : String) (fld : Option String) : Bool :=
  match fld with
  | some s => ciExact v s
  | none => false

theorem qGroupMatch_plain (q : String) (p : Place)
    (hq : plainStr q = true) : qGroupMatch q p = specQMatch q p := by
  unfold qGroupMatch specQMatch matchOptField
  have hf : (fun t => regexMatchI q t) = fun t => ciSub q t :=
    funext fun t => regexMatchI_plain q t hq
  rw [regexMatchI_plain q p.name hq]
  cases p.city <;> cases p.state <;> cases p.category <;> cases p.tags <;>
    simp [regexMatchI_plain _ _ hq, hf]

theorem matchOptField_anchored_plain (v : String) (fld : Option String)
    (hv : plainStr v = true) :
    matchOptField ("^" ++ v ++ "$") fld = specExactField v fld := by
  unfold matchOptField specExactField
  cases fld with
  | none => rfl
  | some s => exact regexMatchI_anchored_plain v s hv

theorem buildFilter_only_q (q : String) (hq : q ≠ "") :
    buildFilter (some q) none none none =
      (⟨some q, none, none, none⟩ : MongoFilter) := by
  simp [buildFilter, hq]

theorem evalFilter_only_q (q : String) (p : Place) :
    evalFilter (⟨some q, none, none, none⟩ : MongoFilter) p =
      qGroupMatch q p := by
  simp [evalFilter]

/-! ### Claim C1 -/

/-- Claim C1 (amended): for every GET /places request with a present,
non-empty `q` that is free of matching-engine metacharacters, the returned
items are exactly the first `limit` stored documents in which `q` occurs as
a case-insensitive substring of `name`, `city`, `state`, or `category`, or
of some element of `tags`.  (The implementation passes `q` to the engine
unescaped, so for `q` containing metacharacters the match is
regular-expression search, not substring containment — see the
counterexample.) -/
theorem claim_c1_q_substring_when_plain (store : List StoredDoc)
    (q : String) (limit : Nat) (hq : q ≠ "") (hplain : plainStr q = true) :
    (list_places store (some q) none none none limit).items =
      ((store.filter fun d => specQMatch q d.place).take limit).map
        cleanDoc := by
  have hfun : (fun d : StoredDoc =>
      evalFilter (⟨some q, none, none, none⟩ : MongoFilter) d.place) =
      fun d => specQMatch q d.place :=
    funext fun d => by
      rw [evalFilter_only_q, qGroupMatch_plain _ _ hplain]
  simp only [list_places, get_documents, buildFilter_only_q q hq, hfun]

/-- The stored document witnessing claim C1's failure on unescaped
metacharacters. -/
def c1Doc : StoredDoc := { oid := some 0, place := { name := "abc" } }

/-- Claim C1 counterexample: with one stored document named "abc" and
`q = "a.c"`, the endpoint returns the document (the unescaped `.` matches
`b` as a regex wildcard) although "a.c" is not a case-insensitive substring
of any of its fields — the claim as stated is false for metacharacter
inputs. -/
theorem claim_c1_counterexample :
    (list_places [c1Doc] (some "a.c") none none none 100).items =
      [cleanDoc c1Doc] ∧
    ciSub "a.c" "abc" = false ∧ specQMatch "a.c" c1Doc.place = false := by
  decide

/-- Claim C1 witness: the amended theorem applied at a concrete input. -/
theorem claim_c1_witness :
    ("ab" ≠ "" ∧ plainStr "ab" = true) ∧
    (list_places [c1Doc] (some "ab") none none none 100).items =
      (([c1Doc].filter fun d => specQMatch "ab" d.place).take 100).map
        cleanDoc :=
  ⟨⟨by decide, by decide⟩,
   claim_c1_q_substring_when_plain [c1Doc] "ab" 100 (by decide) (by decide)⟩

/-! ### Claim C2 -/

theorem evalFilter_buildFilter_cat (q : Option String) (v : String)
    (hv : v ≠ "") (p : Place) :
    evalFilter (buildFilter q (some v) none none) p =
      ((match q with
        | some s => if s = "" then true else qGroupMatch s p
        | none => true) &&
       matchOptField ("^" ++ v ++ "$") p.category) := by
  cases q with
  | none => simp [buildFilter, evalFilter, hv]
  | some s =>
    by_cases hs : s = "" <;> simp [buildFilter, evalFilter, hv, hs]

/-- Claim C2 (amended): for every GET /places request whose `category`,
`state`, or `city` parameter is a present, non-empty string free of
matching-engine metacharacters, that parameter filters by case-insensitive
exact full-string equality against the corresponding field, and all present
filters — including `q`'s OR-group — combine conjunctively.  (The value is
interpolated unescaped into the anchored pattern, so for values containing
metacharacters the filter is regex matching, not exact equality — see the
counterexample.) -/
theorem claim_c2_exact_match_when_plain (store : List StoredDoc)
    (v : String) (limit : Nat) (hv : v ≠ "") (hplain : plainStr v = true) :
    ((list_places store none (some v) none none limit).items =
      ((store.filter fun d => specExactField v d.place.category).take
        limit).map cleanDoc) ∧
    ((list_places store none none (some v) none limit).items =
      ((store.filter fun d => specExactField v d.place.state).take
        limit).map cleanDoc) ∧
    ((list_places store none none none (some v) limit).items =
      ((store.filter fun d => specExactField v d.place.city).take
        limit).map cleanDoc) ∧
    (∀ (q : String) (p : Place), q ≠ "" →
      evalFilter (buildFilter (some q) (some v) none none) p =
        (qGroupMatch q p && specExactField v p.category)) := by
  refine ⟨?_, ?_, ?_, ?_⟩
  · have hfun : (fun d : StoredDoc =>
        evalFilter (buildFilter none (some v) none none) d.place) =
        fun d => specExactField v d.place.category :=
      funext fun d => by
        simp [buildFilter, evalFilter, hv,
          matchOptField_anchored_plain v _ hplain]
    simp only [list_places, get_documents, hfun]
  · have hfun : (fun d : StoredDoc =>
        evalFilter (buildFilter none none (some v) none) d.place) =
        fun d => specExactField v d.place.state :=
      funext fun d => by
        simp [buildFilter, evalFilter, hv,
          matchOptField_anchored_plain v _ hplain]
    simp only [list_places, get_documents, hfun]
  · have hfun : (fun d : StoredDoc =>
        evalFilter (buildFilter none none none (some v)) d.place) =
        fun d => specExactField v d.place.city :=
      funext fun d => by
        simp [buildFilter, evalFilter, hv,
          matchOptField_anchored_plain v _ hplain]
    simp only [list_places, get_documents, hfun]
  · intro q p hq
    rw [evalFilter_buildFilter_cat (some q) v hv p]
    simp [hq, matchOptField_anchored_plain v _ hplain]

/-- The stored document witnessing claim C2's failure on unescaped
metacharacters. -/
def c2Doc : StoredDoc :=
  { oid := some 0, place := { name := "x", category := some "ab" } }

/-- Claim C2 counterexample: with one stored document whose category is
"ab" and the parameter `category = "a|b"`, the endpoint returns the
document — the unescaped `|` splits the anchored pattern `^a|b$` into
`^a` OR `b$`, so the "full-string anchor" is lost — although "a|b" does
not case-insensitively equal "ab". -/
theorem claim_c2_counterexample :
    (list_places [c2Doc] none (some "a|b") none none 100).items =
      [cleanDoc c2Doc] ∧
    ciExact "a|b" "ab" = false := by
  decide

/-- Claim C2 witness: the amended theorem applied at a concrete input. -/
theorem claim_c2_witness :
    ("Berlin" ≠ "" ∧ plainStr "Berlin" = true) ∧
    ((list_places [c2Doc] none (some "Berlin") none none 100).items =
      (([c2Doc].filter fun d =>
        specExactField "Berlin" d.place.category).take 100).map cleanDoc) ∧
    ((list_places [c2Doc] none none (some "Berlin") none 100).items =
      (([c2Doc].filter fun d =>
        specExactField "Berlin" d.place.state).take 100).map cleanDoc) ∧
    ((list_places [c2Doc] none none none (some "Berlin") 100).items =
      (([c2Doc].filter fun d =>
        specExactField "Berlin" d.place.city).take 100).map cleanDoc) ∧
    (∀ (q : String) (p : Place), q ≠ "" →
      evalFilter (buildFilter (some q) (some "Berlin") none none) p =
        (qGroupMatch q p && specExactField "Berlin" p.category)) :=
  ⟨⟨by decide, by decide⟩,
   claim_c2_exact_match_when_plain [c2Doc] "Berlin" 100 (by decide)
     (by decide)⟩

/-! ### Claim C3 -/

/-- Claim C3 (amended): an explicitly supplied empty string for any of the
filter parameters `q`, `category`, `state`, `city` imposes no constraint —
the code's truthiness test treats it exactly like an omitted parameter, so
it is NOT applied as a zero-result exact-match filter. -/
theorem claim_c3_empty_param_is_absent (store : List StoredDoc)
    (q category state city : Option String) (limit : Nat) :
    (list_places store (some "") category state city limit =
      list_places store none category state city limit) ∧
    (list_places store q (some "") state city limit =
      list_places store q none state city limit) ∧
    (list_places store q category (some "") city limit =
      list_places store q category none city limit) ∧
    (list_places store q category state (some "") limit =
      list_places store q category state none limit) := by
  refine ⟨?_, ?_, ?_, ?_⟩ <;>
    simp [list_places, get_documents, buildFilter]

/-- The stored document witnessing claim C3's failure. -/
def c3Doc : StoredDoc :=
  { oid := some 0, place := { name := "x", category := some "landmark" } }

/-- Claim C3 counterexample: with one stored document whose category is
"landmark" and an explicitly supplied empty `category` parameter, the
endpoint still returns the document, although an exact-match filter for the
empty string would reject it ("" does not equal "landmark") — the claim
that an explicit empty string is applied as a filter is false. -/
theorem claim_c3_counterexample :
    (list_places [c3Doc] none (some "") none none 100).items =
      [cleanDoc c3Doc] ∧
    ciExact "" "landmark" = false := by
  decide

/-! ### Claim C4 -/

theorem idToString_injective : Function.Injective idToString := by
  intro a b h
  have hd : ('#' :: List.replicate a '*') = ('#' :: List.replicate b '*') :=
    congrArg String.data h
  have := congrArg List.length hd
  simpa using this

theorem insertAll_sample_ids (n : Nat) :
    (insertAll ⟨[], n⟩ samplePlaces).1 =
      (List.range' n 10).map idToString := by
  simp [insertAll, create_document, samplePlaces, List.range']

theorem insertAll_sample_len (n : Nat) :
    (insertAll ⟨[], n⟩ samplePlaces).2.docs.length = 10 := by
  simp [insertAll, create_document, samplePlaces]

/-- Claim C4 (confirmed): when the place collection is empty, POST
/places/seed inserts exactly 10 documents and answers `seeded: true`,
`count: 10`, with a list of 10 distinct generated identifiers. -/
theorem claim_c4_seed_when_empty (db : DB) (hempty : db.docs = []) :
    ∃ ids : List String,
      (seed_places db).1 =
        { seeded := true, message := none, count := 10, ids := some ids } ∧
      ids.length = 10 ∧ ids.Nodup ∧
      (seed_places db).2.docs.length = 10 := by
  obtain ⟨docs, n⟩ := db
  simp only at hempty
  subst hempty
  refine ⟨(List.range' n 10).map idToString, ?_, ?_, ?_, ?_⟩
  · have h1 := insertAll_sample_ids n
    simp [seed_places, h1]
  · simp
  · exact (List.nodup_range' n 10 1 Nat.one_pos).map idToString_injective
  · have h2 := insertAll_sample_len n
    simp [seed_places, h2]

/-- Claim C4 witness: the theorem applied to the concrete empty database. -/
theorem claim_c4_witness :
    (DB.mk [] 0).docs = [] ∧
    ∃ ids : List String,
      (seed_places ⟨[], 0⟩).1 =
        { seeded := true, message := none, count := 10, ids := some ids } ∧
      ids.length = 10 ∧ ids.Nodup ∧
      (seed_places ⟨[], 0⟩).2.docs.length = 10 :=
  ⟨rfl, claim_c4_seed_when_empty ⟨[], 0⟩ rfl⟩

/-! ### Claim C5 -/

/-- Claim C5 (confirmed): when at least one place document exists, POST
/places/seed performs no insertion — the database state is returned
unchanged — and answers `seeded: false` with a message and the existing
count. -/
theorem claim_c5_seed_noop_when_nonempty (db : DB)
    (hnonempty : 0 < db.docs.length) :
    seed_places db =
      ({ seeded := false, message := some "Places already exist",
         count := db.docs.length, ids := none }, db) := by
  unfold seed_places
  rw [if_pos hnonempty]

/-- Claim C5 witness: the theorem applied to a concrete one-document
database. -/
theorem claim_c5_witness :
    0 < (DB.mk [⟨some 0, { name := "x" }⟩] 1).docs.length ∧
    seed_places ⟨[⟨some 0, { name := "x" }⟩], 1⟩ =
      ({ seeded := false, message := some "Places already exist",
         count := 1, ids := none }, ⟨[⟨some 0, { name := "x" }⟩], 1⟩) :=
  ⟨by decide,
   claim_c5_seed_noop_when_nonempty ⟨[⟨some 0, { name := "x" }⟩], 1⟩
     (by decide)⟩

/-! ### Claim C6 -/

/-- Claim C6 (confirmed): for every `limit` in [1, 500] the endpoint
answers with at most `limit` items; for every `limit` outside that range
the request is rejected as a client error; an omitted `limit` defaults
to 100. -/
theorem claim_c6_limit_bounds (store : List StoredDoc)
    (q category state city : Option String) :
    (∀ l : Int, 1 ≤ l → l ≤ 500 →
      ∃ r, listPlacesEndpoint store q category state city (some l) =
          Except.ok r ∧
        r.items.length ≤ l.toNat) ∧
    (∀ l : Int, l < 1 ∨ 500 < l →
      listPlacesEndpoint store q category state city (some l) =
        Except.error "422 limit out of range") ∧
    listPlacesEndpoint store q category state city none =
      Except.ok (list_places store q category state city 100) := by
  refine ⟨?_, ?_, rfl⟩
  · intro l h1 h2
    refine ⟨list_places store q category state city l.toNat, ?_, ?_⟩
    · simp [listPlacesEndpoint, resolveLimit, h1, h2, Except.map]
    · simp only [list_places, get_documents, List.length_map,
        List.length_take]
      omega
  · intro l h
    have hno : ¬(1 ≤ l ∧ l ≤ 500) := by omega
    simp [listPlacesEndpoint, resolveLimit, hno, Except.map]

/-- Claim C6 witness: the theorem applied at concrete limits 3 (accepted),
501 (rejected), and omitted (default 100). -/
theorem claim_c6_witness :
    ((1 : Int) ≤ 3 ∧ (3 : Int) ≤ 500 ∧ ((501 : Int) < 1 ∨ 500 < (501 : Int))) ∧
    (∃ r, listPlacesEndpoint [] none none none none (some 3) =
        Except.ok r ∧ r.items.length ≤ (3 : Int).toNat) ∧
    listPlacesEndpoint [] none none none none (some 501) =
      Except.error "422 limit out of range" ∧
    listPlacesEndpoint [] none none none none none =
      Except.ok (list_places [] none none none none 100) :=
  ⟨⟨by decide, by decide, by decide⟩,
   (claim_c6_limit_bounds [] none none none none).1 3 (by decide) (by decide),
   (claim_c6_limit_bounds [] none none none none).2.1 501 (by decide),
   (claim_c6_limit_bounds [] none none none none).2.2⟩

/-! ### Claim C7 -/

/-- Claim C7 (confirmed): every returned item carries a plain-string `id`
(the stored identifier rendered as a string, empty when the internal key
was absent), the item's remaining shape is exactly the stored document's
fields with the internal identifier key removed, and `count` equals the
number of items. -/
theorem claim_c7_item_shape (store : List StoredDoc)
    (q category state city : Option String) (limit : Nat) :
    (list_places store q category state city limit).count =
      (list_places store q category state city limit).items.length ∧
    ∀ it ∈ (list_places store q category state city limit).items,
      ∃ d ∈ store, it.place = d.place ∧
        it.id = (match d.oid with
                 | some n => idToString n
                 | none => "") := by
  constructor
  · rfl
  · intro it hit
    simp only [list_places] at hit
    obtain ⟨d, hd, rfl⟩ := List.mem_map.mp hit
    simp only [get_documents] at hd
    have hmem : d ∈ store := List.mem_of_mem_filter (List.mem_of_mem_take hd)
    exact ⟨d, hmem, rfl, rfl⟩

/-- The store used to witness claim C7. -/
def c7Store : List StoredDoc := [⟨some 3, { name := "n" }⟩]

/-- Claim C7 witness: the theorem applied at a concrete store and item. -/
theorem claim_c7_witness :
    ((list_places c7Store none none none none 5).count =
      (list_places c7Store none none none none 5).items.length) ∧
    (Item.mk (idToString 3) { name := "n" } ∈
      (list_places c7Store none none none none 5).items) ∧
    ∃ d ∈ c7Store,
      (Item.mk (idToString 3) { name := "n" }).place = d.place ∧
      (Item.mk (idToString 3) { name := "n" }).id =
        (match d.oid with
         | some n => idToString n
         | none => "") :=
  ⟨(claim_c7_item_shape c7Store none none none none 5).1,
   by decide,
   (claim_c7_item_shape c7Store none none none none 5).2 _ (by decide)⟩

/-! ### Claim C8 -/

/-- Claim C8 (amended): GET /test is a total, side-effect-free report for
every database state: the backend always reports running; a raised
collection-enumeration failure is rendered as a degraded status string with
the error message truncated to 50 characters; and when no database handle
is configured the endpoint reports status "⚠️  Available but not
initialized" with connection status "Not Connected" (an
available-but-not-initialized tier, not the "❌ Not Available" string). -/
theorem claim_c8_test_degrades (conn : Option DBConn)
    (urlSet nameSet : Bool) :
    (test_database conn urlSet nameSet).backend = "✅ Running" ∧
    (conn = none →
      (test_database conn urlSet nameSet).database =
        "⚠️  Available but not initialized" ∧
      (test_database conn urlSet nameSet).connection_status =
        "Not Connected" ∧
      (test_database conn urlSet nameSet).collections = []) ∧
    (∀ (nm : Option String) (e : String),
      conn = some ⟨nm, Except.error e⟩ →
      (test_database conn urlSet nameSet).database =
        "⚠️  Connected but Error: " ++ String.mk (e.data.take 50) ∧
      (e.data.take 50).length ≤ 50) ∧
    (∀ (nm : Option String) (cols : List String),
      conn = some ⟨nm, Except.ok cols⟩ →
      (test_database conn urlSet nameSet).database =
        "✅ Connected & Working" ∧
      (test_database conn urlSet nameSet).collections = cols.take 10 ∧
      (test_database conn urlSet nameSet).collections.length ≤ 10) := by
  refine ⟨rfl, ?_, ?_, ?_⟩
  · rintro rfl
    exact ⟨rfl, rfl, rfl⟩
  · rintro nm e rfl
    refine ⟨rfl, ?_⟩
    simp [List.length_take]
  · rintro nm cols rfl
    refine ⟨rfl, rfl, ?_⟩
    simp [test_database, List.length_take]

/-- Claim C8 counterexample: with no database configured the endpoint's
database field reads "⚠️  Available but not initialized" — it literally
reports the database as *available*, not as unavailable ("❌ Not
Available" is the code's own unavailable rendering, and it is overwritten
in this state). -/
theorem claim_c8_counterexample :
    (test_database none false false).database =
      "⚠️  Available but not initialized" ∧
    (test_database none false false).database ≠ "❌ Not Available" ∧
    (test_database none false false).backend = "✅ Running" := by
  decide

/-- A 60-character error message exercising the 50-character truncation. -/
def c8ErrMsg : String :=
  "connection refused connection refused connection refused 123"

/-- Claim C8 witness: the amended theorem applied at the three concrete
database states. -/
theorem claim_c8_witness :
    (test_database none false false).backend = "✅ Running" ∧
    ((test_database none false false).database =
        "⚠️  Available but not initialized" ∧
      (test_database none false false).connection_status =
        "Not Connected" ∧
      (test_database none false false).collections = []) ∧
    ((test_database (some ⟨none, Except.error c8ErrMsg⟩) true true).database =
        "⚠️  Connected but Error: " ++ String.mk (c8ErrMsg.data.take 50) ∧
      (c8ErrMsg.data.take 50).length ≤ 50) ∧
    ((test_database (some ⟨some "mydb", Except.ok ["place"]⟩) true
        true).database = "✅ Connected & Working" ∧
      (test_database (some ⟨some "mydb", Except.ok ["place"]⟩) true
        true).collections = ["place"].take 10 ∧
      (test_database (some ⟨some "mydb", Except.ok ["place"]⟩) true
        true).collections.length ≤ 10) :=
  ⟨(claim_c8_test_degrades none false false).1,
   (claim_c8_test_degrades none false false).2.1 rfl,
   (claim_c8_test_degrades (some ⟨none, Except.error c8ErrMsg⟩) true
     true).2.2.1 none c8ErrMsg rfl,
   (claim_c8_test_degrades (some ⟨some "mydb", Except.ok ["place"]⟩) true
     true).2.2.2 (some "mydb") ["place"] rfl⟩

/-! ### Claim C9 -/

theorem hasSub_refl (l : List Char) : hasSub l l = true := by
  unfold hasSub
  apply List.any_eq_true.mpr
  exact ⟨0, List.mem_range.mpr (Nat.succ_pos _),
    by simp [startsWithChars_refl]⟩

theorem qGroupMatch_self (p : Place) (h : plainStr p.name = true) :
    qGroupMatch p.name p = true := by
  unfold qGroupMatch
  rw [regexMatchI_plain _ _ h]
  unfold ciSub
  simp [hasSub_refl]

/-- Claim C9 (amended): a document created via POST /places with a
non-empty name free of matching-engine metacharacters is retrievable via
GET /places?q=<name> — provided the documents already matching the query
fit under the result cap, so the new last-positioned document is not
truncated away — and its returned fields equal the submitted fields
exactly, plus the generated string id.  (For names containing
metacharacters the unescaped query need not match the stored name itself —
see the counterexample.) -/
theorem claim_c9_roundtrip (db : DB) (p : Place) (limit : Nat)
    (hname : p.name ≠ "") (hplain : plainStr p.name = true)
    (hroom : (db.docs.filter fun d => qGroupMatch p.name d.place).length <
      limit) :
    ∃ it ∈ (list_places (create_place db p).2.docs (some p.name) none none
        none limit).items,
      it.place = p ∧ it.id = (create_place db p).1 := by
  refine ⟨⟨idToString db.nextId, p⟩, ?_, rfl, rfl⟩
  simp only [create_place, create_document, list_places, get_documents,
    buildFilter_only_q p.name hname]
  have hfun : (fun d : StoredDoc =>
      evalFilter (⟨some p.name, none, none, none⟩ : MongoFilter) d.place) =
      fun d => qGroupMatch p.name d.place :=
    funext fun d => evalFilter_only_q _ _
  rw [hfun, List.filter_append]
  have hnew : List.filter (fun d : StoredDoc => qGroupMatch p.name d.place)
      ([⟨some db.nextId, p⟩] : List StoredDoc) =
      ([⟨some db.nextId, p⟩] : List StoredDoc) := by
    simp [List.filter, qGroupMatch_self p hplain]
  rw [hnew]
  have hlen : ((db.docs.filter fun d : StoredDoc =>
      qGroupMatch p.name d.place) ++
      ([⟨some db.nextId, p⟩] : List StoredDoc)).length ≤ limit := by
    simp only [List.length_append, List.length_cons, List.length_nil]
    omega
  rw [List.take_of_length_le hlen]
  have hitem : (⟨idToString db.nextId, p⟩ : Item) =
      cleanDoc ⟨some db.nextId, p⟩ := rfl
  rw [hitem]
  exact List.mem_map_of_mem cleanDoc (by simp)

/-- Claim C9 counterexample: a place named "x^y" is created and stored, yet
GET /places?q=x^y returns no items — the unescaped `^` makes the pattern
unmatchable past position 0, so the round-trip fails for metacharacter
names. -/
theorem claim_c9_counterexample :
    ((create_place ⟨[], 0⟩ { name := "x^y" }).2.docs =
      [⟨some 0, { name := "x^y" }⟩]) ∧
    (list_places (create_place ⟨[], 0⟩ { name := "x^y" }).2.docs
      (some "x^y") none none none 100).items = [] := by
  decide

/-- The submitted place used to witness claim C9. -/
def c9Place : Place := { name := "Foo" }

/-- Claim C9 witness: the amended theorem applied at a concrete creation
into an empty database. -/
theorem claim_c9_witness :
    (c9Place.name ≠ "" ∧ plainStr c9Place.name = true ∧
      ((DB.mk [] 0).docs.filter fun d =>
        qGroupMatch c9Place.name d.place).length < 100) ∧
    ∃ it ∈ (list_places (create_place ⟨[], 0⟩ c9Place).2.docs
        (some c9Place.name) none none none 100).items,
      it.place = c9Place ∧ it.id = (create_place ⟨[], 0⟩ c9Place).1 :=
  ⟨⟨by decide, by decide, by decide⟩,
   claim_c9_roundtrip ⟨[], 0⟩ c9Place 100 (by decide) (by decide)
     (by decide)⟩

/-! ### Claim C10 -/

/-- Claim C10 (confirmed): a stored document that lacks the internal
identifier key does not make GET /places fail: whenever the storage layer
returns such a document, it appears in the response with its `id` field set
to the empty string. -/
theorem claim_c10_missing_oid (store : List StoredDoc)
    (q category state city : Option String) (limit : Nat) (d : StoredDoc)
    (hd : d ∈ get_documents store (buildFilter q category state city) limit)
    (hoid : d.oid = none) :
    Item.mk "" d.place ∈
      (list_places store q category state city limit).items := by
  simp only [list_places]
  have hclean : Item.mk "" d.place = cleanDoc d := by
    simp [cleanDoc, hoid]
  rw [hclean]
  exact List.mem_map_of_mem cleanDoc hd

/-- The store used to witness claim C10: its only document lacks the
internal identifier key. -/
def c10Store : List StoredDoc := [⟨none, { name := "n" }⟩]

/-- Claim C10 witness: the theorem applied at a concrete store whose
document has no internal identifier. -/
theorem claim_c10_witness :
    ((⟨none, { name := "n" }⟩ : StoredDoc) ∈
        get_documents c10Store (buildFilter none none none none) 5 ∧
      (⟨none, { name := "n" }⟩ : StoredDoc).oid = none) ∧
    Item.mk "" ({ name := "n" } : Place) ∈
      (list_places c10Store none none none none 5).items :=
  ⟨⟨by decide, by decide⟩,
   claim_c10_missing_oid c10Store none none none none 5
     ⟨none, { name := "n" }⟩ (by decide) (by decide)⟩
